import Mathlib

/-!
Verification development for the GRH-BOT frontend (repository Sankalptw/GRH-BOT).

The repository contains two React source files:
- `src/frontend/src/App.jsx`: a landing page plus two chat-widget variants.
  The second (newer) `ChatbotWidget` drives a multi-phase psychometric
  assessment through chat messages; its per-render state is modelled here by
  `ChatbotWidget.ChatState` (messages, input, loading, assessmentState) and
  its event handlers by pure transition functions parameterised over the
  network outcome of the single request each handler issues.
- `src/frontend/src/PsychometricQuiz.jsx`: a modal quiz driven by a backend
  session; modelled in namespace `PsychometricQuiz`.

Modelling conventions:
- JavaScript objects used as string-keyed maps (`mindsetAnswers`,
  `domainAnswers`) become association lists updated by `objSet` and read by
  `objGet`; entry order is never observed.
- A `fetch` together with `res.json()` is modelled as a `FetchOutcome`
  parameter: `failure` covers transport errors, rejected promises and JSON
  parse errors (everything routed to the `catch` block of the handler),
  `success` carries the parsed response.  Where the handler inspects
  `response.ok`, the outcome carries an `HttpResp` with the `ok` flag.
- Fields a response may lack (`data.success`, `data.score_data`, ...) are
  `Option`s; JavaScript truthiness of such a flag is `jsTruthy`.
- String case conversion is modelled for the ASCII range (all strings the
  code compares are ASCII); timestamps (`new Date()`) are omitted from
  messages since no logic reads them.
- `parseInt` (no radix argument) is modelled by `jsParseInt`: ASCII leading
  whitespace, optional sign, `0x`/`0X` hexadecimal or decimal digit prefix,
  `none` for NaN.
-/

/-- One chat message; the source tags messages with `type: "user" | "bot"`. -/
inductive Sender where
  | user
  | bot
deriving DecidableEq

/-- A chat transcript entry (`{ type, text, timestamp }` in the source; the
timestamp is display-only and omitted). -/
structure Message where
  type : Sender
  text : String
deriving DecidableEq

/-- A bot-side transcript entry. -/
def botMsg (t : String) : Message :=
  { type := Sender.bot, text := t }

/-- A user-side transcript entry. -/
def userMsg (t : String) : Message :=
  { type := Sender.user, text := t }

/-- Outcome of one `fetch(...)`/`res.json()` pair: `failure` is any throw
routed to the handler's `catch` block, `success` the parsed value. -/
inductive FetchOutcome (α : Type) where
  | success (val : α)
  | failure
deriving DecidableEq

/-- An HTTP response as the quiz code sees it: the `response.ok` flag and the
parsed JSON body. -/
structure HttpResp (α : Type) where
  ok : Bool
  body : α
deriving DecidableEq

/-- JavaScript truthiness of a possibly missing boolean field
(`if (data.success)` where `data.success` may be absent). -/
def jsTruthy : Option Bool → Bool
  | some b => b
  | none => false

/-- Update of a string-keyed object, `{...m, [k]: v}`.  Entry order is not
observable (all access is through `objGet`), so the updated binding is put in
front. -/
def objSet (m : List (String × String)) (k v : String) : List (String × String) :=
  (k, v) :: m.filter (fun p => p.fst ≠ k)

/-- Lookup in a string-keyed object, `m[k]`. -/
def objGet (m : List (String × String)) (k : String) : Option String :=
  (m.find? (fun p => p.fst = k)).map Prod.snd

/-- The list of values stored in a string-keyed object. -/
def answerValues (m : List (String × String)) : List String :=
  m.map Prod.snd

/-- ASCII lower-casing of one character (model of the effect of JavaScript
`toLowerCase` on the ASCII strings the code compares). -/
def lowerChar (c : Char) : Char :=
  if 'A' ≤ c ∧ c ≤ 'Z' then Char.ofNat (c.toNat + 32) else c

/-- ASCII lower-casing of a string (JavaScript `s.toLowerCase()`). -/
def lowerString (s : String) : String :=
  ⟨s.data.map lowerChar⟩

/-- ASCII upper-casing of one character. -/
def upperChar (c : Char) : Char :=
  if 'a' ≤ c ∧ c ≤ 'z' then Char.ofNat (c.toNat - 32) else c

/-- ASCII upper-casing of a string (JavaScript `s.toUpperCase()`). -/
def upperString (s : String) : String :=
  ⟨s.data.map upperChar⟩

/-- `listLeads need hay` holds when `need` is an initial segment of `hay`. -/
def listLeads : List Char → List Char → Bool
  | [], _ => true
  | _ :: _, [] => false
  | a :: as, b :: bs => a = b && listLeads as bs

/-- `listOccurs need hay` holds when `need` occurs contiguously in `hay`. -/
def listOccurs (need : List Char) : List Char → Bool
  | [] => listLeads need []
  | c :: t => listLeads need (c :: t) || listOccurs need t

/-- JavaScript `s.includes(sub)`. -/
def jsIncludes (s sub : String) : Bool :=
  listOccurs sub.data s.data

/-- The characters JavaScript `parseInt` skips at the front of its argument
(ASCII whitespace; the code never feeds it non-ASCII whitespace). -/
def jsWhitespace (c : Char) : Bool :=
  if c = ' ' ∨ c = '\t' ∨ c = '\n' ∨ c = '\r' ∨ c = '\x0b' ∨ c = '\x0c'
  then true else false

/-- JavaScript `s.trim()`: strip whitespace from both ends (ASCII model; the
inputs the widget trims are keyboard text). -/
def jsTrim (s : String) : String :=
  ⟨((s.data.dropWhile jsWhitespace).reverse.dropWhile jsWhitespace).reverse⟩

/-- Hexadecimal digit test for the `0x` branch of `parseInt`. -/
def isHexDigitChar (c : Char) : Bool :=
  if ('0' ≤ c ∧ c ≤ '9') ∨ ('a' ≤ c ∧ c ≤ 'f') ∨ ('A' ≤ c ∧ c ≤ 'F')
  then true else false

/-- Value of a decimal digit character. -/
def decDigitValue (c : Char) : Nat :=
  c.toNat - 48

/-- Value of a hexadecimal digit character. -/
def hexDigitValue (c : Char) : Nat :=
  if '0' ≤ c ∧ c ≤ '9' then c.toNat - 48
  else if 'a' ≤ c ∧ c ≤ 'f' then c.toNat - 87
  else c.toNat - 55

/-- Numeric value of a digit string in the given base. -/
def foldDigits (base : Nat) (digitValue : Char → Nat) (ds : List Char) : Nat :=
  ds.foldl (fun a c => a * base + digitValue c) 0

/-- `parseInt` after whitespace and sign have been consumed: `0x`/`0X`
switches to base 16, otherwise the longest decimal digit prefix is read;
no digit at all gives NaN (`none`). -/
def jsParseIntUnsigned (sgn : Int) (cs : List Char) : Option Int :=
  match cs with
  | '0' :: c :: t =>
    if c = 'x' ∨ c = 'X' then
      let ds := t.takeWhile isHexDigitChar
      if ds.isEmpty then none
      else some (sgn * Int.ofNat (foldDigits 16 hexDigitValue ds))
    else
      some (sgn * Int.ofNat (foldDigits 10 decDigitValue
        (('0' :: c :: t).takeWhile Char.isDigit)))
  | _ =>
    let ds := cs.takeWhile Char.isDigit
    if ds.isEmpty then none
    else some (sgn * Int.ofNat (foldDigits 10 decDigitValue ds))

/-- JavaScript `parseInt(s)` with no radix argument; `none` models `NaN`. -/
def jsParseInt (s : String) : Option Int :=
  match s.data.dropWhile jsWhitespace with
  | '+' :: t => jsParseIntUnsigned 1 t
  | '-' :: t => jsParseIntUnsigned (-1) t
  | t => jsParseIntUnsigned 1 t

namespace ChatbotWidget

/-- Assessment phase of the newer widget: the source stores the strings
`'mindset'`, `'domain-selection'`, `'domain-test'` (or `null`, modelled by
`Option`). -/
inductive Phase where
  | mindset
  | domainSelection
  | domainTest
deriving DecidableEq

/-- A question as the assessment endpoints deliver it: the handlers read
`q.id`, `q.question` and `q.options` (an object from option letter to text). -/
structure Question where
  id : String
  question : String
  options : List (String × String)
deriving DecidableEq

/-- The `assessmentState` record of the newer `ChatbotWidget`. -/
structure AssessmentState where
  active : Bool
  phase : Option Phase
  currentQuestion : Nat
  questions : List Question
  answers : List (String × String)
  selectedDomain : Option String
  mindsetAnswers : List (String × String)
  domainAnswers : List (String × String)
deriving DecidableEq

/-- The initial `useState` value of `assessmentState`, also the record the
code resets to in `clearChat` and at the end of `submitCompleteAssessment`. -/
def initialAssessmentState : AssessmentState :=
  { active := false
    phase := none
    currentQuestion := 0
    questions := []
    answers := []
    selectedDomain := none
    mindsetAnswers := []
    domainAnswers := [] }

/-- The component state the assessment handlers touch. -/
structure ChatState where
  messages : List Message
  input : String
  loading : Bool
  assessmentState : AssessmentState
deriving DecidableEq

/-- The fixed domain list of `handleDomainSelection`. -/
def domains : List String :=
  ["Computer Science", "Biology", "Physics", "Chemistry", "Social Sciences"]

/-- The predicate of the `domains.find(...)` fallback: the domain name
contains the input or the input contains the domain name, case-insensitively. -/
def domainMatchCond (inp : String) (d : String) : Bool :=
  jsIncludes (lowerString d) (lowerString inp) ||
  jsIncludes (lowerString inp) (lowerString d)

/-- Domain resolution of `handleDomainSelection`: `parseInt` the input and
index into `domains` when the value is in `1..domains.length`, otherwise take
the first domain related to the input by `domainMatchCond`. -/
def resolveDomain (inp : String) : Option String :=
  match jsParseInt inp with
  | some n =>
    if 1 ≤ n ∧ n ≤ Int.ofNat domains.length then
      domains.get? (n - 1).toNat
    else
      domains.find? (domainMatchCond inp)
  | none => domains.find? (domainMatchCond inp)

/-- The specification wording of a valid numeric domain choice, for
comparison with the source behaviour: the input is (literally) a 1-based
numeric index in `1..5`, i.e. a nonempty all-digit string of value 1 to 5. -/
def specNumericIndex (s : String) : Bool :=
  if s.data ≠ [] ∧ s.data.all Char.isDigit ∧
     1 ≤ foldDigits 10 decDigitValue s.data ∧ foldDigits 10 decDigitValue s.data ≤ 5
  then true else false

/-- The specification wording of a substring domain match (identical to the
source condition): some fixed domain matches the input case-insensitively. -/
def specSubstringMatch (inp : String) : Bool :=
  domains.any (domainMatchCond inp)

/-- Greeting installed by `clearChat` (the single message the transcript is
reset to). -/
def clearChatGreeting : String :=
  "👋 Hello! I\x27m **GRH Intelligence**, your dedicated research assistant.\nHow may I assist you today?"

/-- The user-side message `startAssessment` appends before its request. -/
def startUserMessage : Message :=
  ⟨Sender.user, "Start Psychometric Evaluation"⟩

/-- Intro message of `startAssessment` on success (`data.total_questions`
interpolated). -/
def startIntroText (totalQuestions : Nat) : String :=
  "Perfect! Let\x27s discover your research potential! 🚀\n\n**Phase 1: Research Mindset Assessment**\n\nI\x27ll ask you " ++
  toString totalQuestions ++
  " questions to understand your research thinking and approach. This helps me evaluate if you have the mindset for research work.\n\nThere are no wrong answers - just be honest! Ready? Let\x27s begin! 🎯"

/-- Error message of `startAssessment` on a failed request. -/
def startErrorText : String :=
  "Sorry, I couldn\x27t load the assessment. Please make sure the backend is running."

/-- The question message `askQuestion` appends: question number, stem, the
options rendered one per line, and the reply instruction.  The source guards
`q.options` for truthiness; the endpoints always send an options object, so
the branch is modelled as always taken. -/
def questionText (total : Nat) (index : Nat) (q : Question) : String :=
  let optionsText :=
    "\n\n" ++ String.intercalate "\n"
      (q.options.map (fun p => p.fst ++ ") " ++ p.snd))
  "**Question " ++ toString (index + 1) ++ "/" ++ toString total ++ "**\n\n" ++
  q.question ++ optionsText ++ "\n\n_Reply with A, B, C, or D_"

/-- Re-prompt of `handleDomainSelection` when the input resolves to no
domain. -/
def domainRepromptText : String :=
  "I didn\x27t understand that. Please reply with 1-5 or the domain name (e.g., \x27Computer Science\x27, \x27Biology\x27)"

/-- Phase-3 intro of `handleDomainSelection` on success. -/
def domainPhaseText (d : String) (totalQuestions : Nat) : String :=
  "Excellent choice! 🎯\n\n**Phase 3: " ++ d ++ " Aptitude Test**\n\nNow I\x27ll test your learning potential and thinking style for " ++ d ++
  ". These questions assess if you can **learn** this field, not what you already know.\n\n" ++
  toString totalQuestions ++ " questions coming up. Let\x27s see how your mind works! 🧠"

/-- Error message of `handleDomainSelection` on a failed request. -/
def domainQuestionsErrorText : String :=
  "Sorry, couldn\x27t load domain questions. Please try again."

/-- Processing message appended at the start of `submitCompleteAssessment`. -/
def processingText : String :=
  "🎉 **All questions answered!**\n\nAnalyzing your responses and generating your personalized evaluation... ⏳"

/-- Error message of `submitCompleteAssessment` on a failed request. -/
def evaluateErrorText : String :=
  "Sorry, I couldn\x27t evaluate your responses. Please try again later."

/-- Parsed body of `/api/assessment/start` and
`/api/assessment/domain-questions`: the handlers read `data.questions` and
`data.total_questions`. -/
structure QuestionsData where
  questions : List Question
  total_questions : Nat
deriving DecidableEq

/-- Parsed body of `/api/assessment/evaluate` (all fields the results
template interpolates). -/
structure EvalResult where
  fit_level : String
  research_aptitude_score : Int
  research_aptitude_percentage : Int
  domain_fit_score : Int
  domain_fit_percentage : Int
  overall_assessment : String
  strengths : List String
  areas_to_develop : List String
  domain_specific_feedback : String
  recommendation : String
deriving DecidableEq

/-- JavaScript string interpolation of a nullable string
(`${assessmentState.selectedDomain}` prints `null` when unset). -/
def optInterp : Option String → String
  | some s => s
  | none => "null"

/-- The results message template of `submitCompleteAssessment`. -/
def resultsText (selectedDomain : Option String) (r : EvalResult) : String :=
  let strengthsText :=
    if r.strengths.length > 0
    then String.intercalate "\n" (r.strengths.map (fun s => "• " ++ s))
    else "• Building your foundation"
  let areasText :=
    if r.areas_to_develop.length > 0
    then String.intercalate "\n" (r.areas_to_develop.map (fun a => "• " ++ a))
    else "• Well-rounded across all areas"
  "✨ **PSYCHOMETRIC EVALUATION RESULTS** ✨\n\n━━━━━━━━━━━━━━━━━━━━━━\n\n**📊 Overall Assessment: " ++ r.fit_level ++
  "**\n\n**Research Mindset Score:** " ++ toString r.research_aptitude_score ++
  "/100 (" ++ toString r.research_aptitude_percentage ++ "%)\n**" ++
  optInterp selectedDomain ++ " Aptitude:** " ++ toString r.domain_fit_score ++
  "/100 (" ++ toString r.domain_fit_percentage ++
  "%)\n\n━━━━━━━━━━━━━━━━━━━━━━\n\n**🎯 Evaluation:**\n" ++ r.overall_assessment ++
  "\n\n**💪 Your Strengths:**\n" ++ strengthsText ++
  "\n\n**📈 Areas to Develop:**\n" ++ areasText ++
  "\n\n**🔬 Domain-Specific Insight:**\n" ++ r.domain_specific_feedback ++
  "\n\n━━━━━━━━━━━━━━━━━━━━━━\n\n**🎓 Recommendations:**\n" ++ r.recommendation ++
  "\n\n━━━━━━━━━━━━━━━━━━━━━━\n\nWould you like to:\n• Retake the assessment\n• Learn more about recommended programs\n• Ask me anything else"

/-- `askQuestion(questions, index)`: appends the question message when the
index is in range, otherwise does nothing. -/
def askQuestion (c : ChatState) (qs : List Question) (index : Nat) : ChatState :=
  match qs.get? index with
  | none => c
  | some q =>
    { c with messages := c.messages ++ [botMsg (questionText qs.length index q)] }

/-- `startAssessment` run to completion: appends the user message, issues
`GET /api/assessment/start`, and on success installs a fresh mindset
assessment state, appends the intro, and (through the scheduled
`askQuestion`) the first question; on failure appends the error message and
leaves `assessmentState` untouched.  `loading` is true during the request and
false at the end. -/
def startAssessment (c : ChatState) (out : FetchOutcome QuestionsData) : ChatState :=
  let c1 := { c with loading := true, messages := c.messages ++ [startUserMessage] }
  match out with
  | FetchOutcome.success data =>
    let c2 :=
      { c1 with
        assessmentState :=
          { active := true
            phase := some Phase.mindset
            currentQuestion := 0
            questions := data.questions
            answers := []
            selectedDomain := none
            mindsetAnswers := []
            domainAnswers := [] }
        messages := c1.messages ++ [botMsg (startIntroText data.total_questions)] }
    { askQuestion c2 data.questions 0 with loading := false }
  | FetchOutcome.failure =>
    { c1 with messages := c1.messages ++ [botMsg (startErrorText)], loading := false }

/-- The deferred side effect `handleMindsetAnswer` schedules with
`setTimeout`. -/
inductive MindsetEffect where
  | askNext (index : Nat)
  | showDomainSelection
deriving DecidableEq

/-- `handleMindsetAnswer(answer)`: reads the current question (indexing past
the end of `questions` would throw in the source, modelled by `none`),
appends the upper-cased answer as a user message, records it under the
question id, and either advances to the next question or moves the phase to
domain selection. -/
def handleMindsetAnswer (c : ChatState) (answer : String) :
    Option (ChatState × MindsetEffect) :=
  match c.assessmentState.questions.get? c.assessmentState.currentQuestion with
  | none => none
  | some q =>
    let newAnswers := objSet c.assessmentState.mindsetAnswers q.id (upperString answer)
    let nextQuestion := c.assessmentState.currentQuestion + 1
    let c1 := { c with messages := c.messages ++ [userMsg (upperString answer)] }
    if nextQuestion < c.assessmentState.questions.length then
      some
        ({ c1 with assessmentState :=
            { c1.assessmentState with
              currentQuestion := nextQuestion
              mindsetAnswers := newAnswers } },
         MindsetEffect.askNext nextQuestion)
    else
      some
        ({ c1 with assessmentState :=
            { c1.assessmentState with
              mindsetAnswers := newAnswers
              phase := some Phase.domainSelection } },
         MindsetEffect.showDomainSelection)

/-- `handleDomainSelection(input)` run to completion: resolve the input
against the fixed domain list; on no match append the re-prompt and stop
(state untouched, `loading` untouched — the source returns before
`setLoading(true)`); on a match append the user message, issue
`POST /api/assessment/domain-questions`, and on success install the
domain-test state and (through the scheduled `askQuestion`) the first domain
question, on failure append the error message and leave `assessmentState`
untouched. -/
def handleDomainSelection (c : ChatState) (inp : String)
    (out : FetchOutcome QuestionsData) : ChatState :=
  match resolveDomain inp with
  | none =>
    { c with messages := c.messages ++ [botMsg (domainRepromptText)] }
  | some selectedDomain =>
    let c1 :=
      { c with
        messages := c.messages ++ [userMsg (selectedDomain)]
        loading := true }
    match out with
    | FetchOutcome.success data =>
      let c2 :=
        { c1 with
          assessmentState :=
            { c1.assessmentState with
              phase := some Phase.domainTest
              selectedDomain := some selectedDomain
              currentQuestion := 0
              questions := data.questions
              domainAnswers := [] }
          messages := c1.messages ++
            [botMsg (domainPhaseText selectedDomain data.total_questions)] }
      { askQuestion c2 data.questions 0 with loading := false }
    | FetchOutcome.failure =>
      { c1 with
        messages := c1.messages ++ [botMsg (domainQuestionsErrorText)]
        loading := false }

/-- Body of the `POST /api/assessment/evaluate` request. -/
structure EvalRequest where
  mindset_answers : List (String × String)
  domain : Option String
  domain_answers : List (String × String)
deriving DecidableEq

/-- `submitCompleteAssessment(domainAnswers)` run to completion: appends the
processing message, issues `POST /api/assessment/evaluate` (body built from
the closure state's `mindsetAnswers` and `selectedDomain` plus the passed
answers; returned alongside the new state), appends the results message on
success or the error message on failure, clears `loading`, and in **both**
cases resets `assessmentState` to its initial values. -/
def submitCompleteAssessment (c : ChatState) (domainAnswers : List (String × String))
    (out : FetchOutcome EvalResult) : ChatState × EvalRequest :=
  let req : EvalRequest :=
    { mindset_answers := c.assessmentState.mindsetAnswers
      domain := c.assessmentState.selectedDomain
      domain_answers := domainAnswers }
  let c1 :=
    { c with loading := true, messages := c.messages ++ [botMsg (processingText)] }
  let c2 :=
    match out with
    | FetchOutcome.success result =>
      { c1 with messages := c1.messages ++
          [botMsg (resultsText c.assessmentState.selectedDomain result)] }
    | FetchOutcome.failure =>
      { c1 with messages := c1.messages ++ [botMsg (evaluateErrorText)] }
  ({ c2 with loading := false, assessmentState := initialAssessmentState }, req)

/-- The call `handleDomainAnswer` makes at the end: either the scheduled
`askQuestion` or `submitCompleteAssessment` with the freshly built answer
object. -/
inductive DomainEffect where
  | askNext (index : Nat)
  | submitEvaluation (answers : List (String × String))
deriving DecidableEq

/-- `handleDomainAnswer(answer)`: like `handleMindsetAnswer` but writing
`domainAnswers`; at the last index it stores the answers and hands the new
answer object to `submitCompleteAssessment`. -/
def handleDomainAnswer (c : ChatState) (answer : String) :
    Option (ChatState × DomainEffect) :=
  match c.assessmentState.questions.get? c.assessmentState.currentQuestion with
  | none => none
  | some q =>
    let newAnswers := objSet c.assessmentState.domainAnswers q.id (upperString answer)
    let nextQuestion := c.assessmentState.currentQuestion + 1
    let c1 := { c with messages := c.messages ++ [userMsg (upperString answer)] }
    if nextQuestion < c.assessmentState.questions.length then
      some
        ({ c1 with assessmentState :=
            { c1.assessmentState with
              currentQuestion := nextQuestion
              domainAnswers := newAnswers } },
         DomainEffect.askNext nextQuestion)
    else
      some
        ({ c1 with assessmentState :=
            { c1.assessmentState with domainAnswers := newAnswers } },
         DomainEffect.submitEvaluation newAnswers)

/-- `handleDomainAnswer` together with the `submitCompleteAssessment` run it
triggers at the last index (the closure state `submitCompleteAssessment`
reads agrees with the threaded state on `mindsetAnswers` and
`selectedDomain`, the only assessment fields it uses). -/
def handleDomainAnswerRun (c : ChatState) (answer : String)
    (out : FetchOutcome EvalResult) : Option ChatState :=
  match handleDomainAnswer c answer with
  | none => none
  | some (c1, DomainEffect.askNext _) => some c1
  | some (c1, DomainEffect.submitEvaluation newAnswers) =>
    some (submitCompleteAssessment c1 newAnswers out).fst

/-- `clearChat`: reset the transcript to the greeting and `assessmentState`
to its initial values (`input` and `loading` are untouched). -/
def clearChat (c : ChatState) : ChatState :=
  { c with
    messages := [botMsg (clearChatGreeting)]
    assessmentState := initialAssessmentState }

/-- Where `sendMessage` routes one submission. -/
inductive Dispatch where
  | blocked
  | mindset (answer : String)
  | domainSelect (inp : String)
  | domainTest (answer : String)
  | phaseIdle
  | ask (question : String)
deriving DecidableEq

/-- The routing logic of `sendMessage`: blocked when the trimmed input is
empty or a request is loading; during an active assessment the raw input goes
to the phase handler (no handler runs when the phase matches none of the
three); otherwise the trimmed input is sent to `/api/ask`. -/
def sendMessageDispatch (c : ChatState) : Dispatch :=
  if jsTrim c.input = "" ∨ c.loading then Dispatch.blocked
  else if c.assessmentState.active then
    match c.assessmentState.phase with
    | some Phase.mindset => Dispatch.mindset c.input
    | some Phase.domainSelection => Dispatch.domainSelect c.input
    | some Phase.domainTest => Dispatch.domainTest c.input
    | _ => Dispatch.phaseIdle
  else Dispatch.ask (jsTrim c.input)

end ChatbotWidget

namespace PsychometricQuiz

/-- A quiz question as `/api/quiz/start` and `/api/quiz/answer` deliver it:
the component reads `stem`, `options` (an array) and `question_num`. -/
structure QuizQuestion where
  question_num : Nat
  stem : String
  options : List String
deriving DecidableEq

/-- Parsed body of `/api/quiz/start`; every field may be absent. -/
structure StartBody where
  success : Option Bool
  message : Option String
  session_id : Option String
  total_questions : Option Nat
  first_question : Option QuizQuestion
deriving DecidableEq

/-- Parsed body of `/api/quiz/answer`. -/
structure AnswerBody where
  completed : Option Bool
  next_question : Option QuizQuestion
deriving DecidableEq

/-- The `score_data` object of `/api/quiz/results`. -/
structure ScoreData where
  aptitude_score : Int
  accuracy : Int
  correct : Int
  total : Int
  level : String
  fit : String
deriving DecidableEq

/-- Parsed body of `/api/quiz/results`. -/
structure ResultsBody where
  success : Option Bool
  score_data : Option ScoreData
  feedback : Option String
deriving DecidableEq

/-- The quiz step the modal is on (`useState('setup')`). -/
inductive QuizStep where
  | setup
  | quiz
  | results
deriving DecidableEq

/-- The `PsychometricQuiz` component state. -/
structure QuizState where
  step : QuizStep
  quizData : Option StartBody
  currentQuestion : Option QuizQuestion
  selectedAnswer : Option Nat
  questionNum : Nat
  results : Option ResultsBody
  loading : Bool
  sessionId : Option String
deriving DecidableEq

/-- The network requests a handler issues, in order. -/
inductive QuizCall where
  | start
  | answer
  | results
deriving DecidableEq

/-- The `alert(...)` sites of the two handlers, one constructor per distinct
error path.  `startNoSuccess` is the `data.success` falsy branch of
`startQuiz`; `invalidResults` is the `Invalid results format from server`
throw; `unexpectedAnswer` is the `Unexpected response` throw. -/
inductive QuizAlert where
  | startTransport
  | startHttp
  | startNoSuccess
  | answerTransport
  | answerHttp
  | resultsTransport
  | resultsHttp
  | invalidResults
  | unexpectedAnswer
deriving DecidableEq

/-- `startQuiz` run to completion: issue `POST /api/quiz/start` and either
install the session (success flag truthy), alert on a falsy success flag, or
alert on a transport failure / non-ok status; `loading` is cleared in the
`finally` block on every path.  The result also lists the network calls
issued (always exactly the one start call — no retry). -/
def startQuiz (s : QuizState) (resp : FetchOutcome (HttpResp StartBody)) :
    QuizState × List QuizCall × Option QuizAlert :=
  match resp with
  | FetchOutcome.failure =>
    ({ s with loading := false }, [QuizCall.start], some QuizAlert.startTransport)
  | FetchOutcome.success r =>
    if r.ok = false then
      ({ s with loading := false }, [QuizCall.start], some QuizAlert.startHttp)
    else if jsTruthy r.body.success then
      ({ s with
          quizData := some r.body
          currentQuestion := r.body.first_question
          questionNum := 1
          sessionId := r.body.session_id
          step := QuizStep.quiz
          loading := false },
       [QuizCall.start], none)
    else
      ({ s with loading := false }, [QuizCall.start], some QuizAlert.startNoSuccess)

/-- `submitAnswer` run to completion: a no-op without a selected answer;
otherwise issue `POST /api/quiz/answer` and, only when the response says
`completed === true`, follow with the one `GET /api/quiz/results` call,
installing the results when the body carries a truthy success flag and a
`score_data` payload and alerting otherwise.  A `completed === false`
response with a `next_question` advances the question and clears the
selection; anything else alerts.  `loading` is cleared in the `finally`
block on every path that set it. -/
def submitAnswer (s : QuizState)
    (aresp : FetchOutcome (HttpResp AnswerBody))
    (rresp : FetchOutcome (HttpResp ResultsBody)) :
    QuizState × List QuizCall × Option QuizAlert :=
  match s.selectedAnswer with
  | none => (s, [], none)
  | some _ =>
    match aresp with
    | FetchOutcome.failure =>
      ({ s with loading := false }, [QuizCall.answer], some QuizAlert.answerTransport)
    | FetchOutcome.success r =>
      if r.ok = false then
        ({ s with loading := false }, [QuizCall.answer], some QuizAlert.answerHttp)
      else if r.body.completed = some true then
        match rresp with
        | FetchOutcome.failure =>
          ({ s with loading := false }, [QuizCall.answer, QuizCall.results],
           some QuizAlert.resultsTransport)
        | FetchOutcome.success rr =>
          if rr.ok = false then
            ({ s with loading := false }, [QuizCall.answer, QuizCall.results],
             some QuizAlert.resultsHttp)
          else if jsTruthy rr.body.success ∧ rr.body.score_data.isSome then
            ({ s with results := some rr.body, step := QuizStep.results, loading := false },
             [QuizCall.answer, QuizCall.results], none)
          else
            ({ s with loading := false }, [QuizCall.answer, QuizCall.results],
             some QuizAlert.invalidResults)
      else
        match r.body.completed, r.body.next_question with
        | some false, some q =>
          ({ s with
              currentQuestion := some q
              questionNum := q.question_num
              selectedAnswer := none
              loading := false },
           [QuizCall.answer], none)
        | _, _ =>
          ({ s with loading := false }, [QuizCall.answer], some QuizAlert.unexpectedAnswer)

/-- `aresp` reports quiz completion: reachable `completed === true` branch
(`response.ok` and strict equality with `true`). -/
def completedResponse : FetchOutcome (HttpResp AnswerBody) → Bool
  | FetchOutcome.success r =>
    r.ok && (match r.body.completed with | some true => true | _ => false)
  | FetchOutcome.failure => false

end PsychometricQuiz

/-! Concrete fixtures used to instantiate theorems with hypotheses. -/

/-- A one-question mindset-phase state. -/
def mindsetSample : ChatbotWidget.ChatState :=
  { messages := []
    input := ""
    loading := false
    assessmentState :=
      { active := true
        phase := some ChatbotWidget.Phase.mindset
        currentQuestion := 0
        questions := [{ id := "m1", question := "stem", options := [("A", "x"), ("B", "y")] }]
        answers := []
        selectedDomain := none
        mindsetAnswers := []
        domainAnswers := [] } }

/-- A one-question domain-test-phase state with one mindset answer stored. -/
def domainTestSample : ChatbotWidget.ChatState :=
  { messages := []
    input := ""
    loading := false
    assessmentState :=
      { active := true
        phase := some ChatbotWidget.Phase.domainTest
        currentQuestion := 0
        questions := [{ id := "d1", question := "stem", options := [("A", "x"), ("B", "y")] }]
        answers := []
        selectedDomain := some "Physics"
        mindsetAnswers := [("m1", "A")]
        domainAnswers := [] } }

/-- A widget state whose `loading` flag is set. -/
def loadingChatSample : ChatbotWidget.ChatState :=
  { mindsetSample with input := "A", loading := true }

/-- A quiz state mid-request: `loading` is true and an answer is selected. -/
def quizLoadingSample : PsychometricQuiz.QuizState :=
  { step := PsychometricQuiz.QuizStep.quiz
    quizData := none
    currentQuestion := none
    selectedAnswer := some 2
    questionNum := 5
    results := none
    loading := true
    sessionId := some "s1" }

/-- A quiz state on the setup step with nothing selected. -/
def quizSetupSample : PsychometricQuiz.QuizState :=
  { step := PsychometricQuiz.QuizStep.setup
    quizData := none
    currentQuestion := none
    selectedAnswer := none
    questionNum := 1
    results := none
    loading := false
    sessionId := none }

/-- An `/api/quiz/answer` response reporting completion. -/
def completedAnswerResp : FetchOutcome (HttpResp PsychometricQuiz.AnswerBody) :=
  FetchOutcome.success { ok := true, body := { completed := some true, next_question := none } }

/-- A well-formed `/api/quiz/results` response. -/
def okResultsResp : FetchOutcome (HttpResp PsychometricQuiz.ResultsBody) :=
  FetchOutcome.success
    { ok := true
      body :=
        { success := some true
          score_data := some
            { aptitude_score := 72, accuracy := 80, correct := 4, total := 5
              level := "High", fit := "Good" }
          feedback := some "fb" } }

/-- A start body whose success flag is absent. -/
def noSuccessStartBody : PsychometricQuiz.StartBody :=
  { success := none, message := none, session_id := none
    total_questions := none, first_question := none }

/-- The state `handleMindsetAnswer mindsetSample "hello"` produces. -/
def mindsetHelloPost : ChatbotWidget.ChatState :=
  { mindsetSample with
    messages := [userMsg "HELLO"]
    assessmentState :=
      { mindsetSample.assessmentState with
        mindsetAnswers := [("m1", "HELLO")]
        phase := some ChatbotWidget.Phase.domainSelection } }

/-- The state `handleDomainAnswer mindsetSample "hello"` produces. -/
def domainHelloPost : ChatbotWidget.ChatState :=
  { mindsetSample with
    messages := [userMsg "HELLO"]
    assessmentState :=
      { mindsetSample.assessmentState with domainAnswers := [("m1", "HELLO")] } }

/-! Helper lemmas. -/

/-- Reading back the key just written into a string-keyed object. -/
theorem objGet_objSet (m : List (String × String)) (k v : String) :
    objGet (objSet m k v) k = some v := by
  simp [objGet, objSet, List.find?]

/-- Every value of an updated object is the new value or an old value. -/
theorem mem_answerValues_objSet {m : List (String × String)} {k v w : String}
    (h : w ∈ answerValues (objSet m k v)) :
    w = v ∨ w ∈ answerValues m := by
  simp only [answerValues, objSet, List.map_cons, List.mem_cons, List.mem_map] at h ⊢
  rcases h with h | ⟨p, hp, rfl⟩
  · exact Or.inl h
  · exact Or.inr ⟨p, (List.mem_filter.mp hp).1, rfl⟩


/-! Claim theorems. -/

/-- C6: for every reachable widget state, in whatever phase, `clearChat`
produces the same result: `assessmentState` is reset to its initial Idle
values (inactive, no phase, question index 0, empty questions, empty answer
maps, no selected domain) and the transcript is reset to the single greeting
message. -/
theorem c6_clearChat_resets (c : ChatbotWidget.ChatState) :
    (ChatbotWidget.clearChat c).messages = [botMsg ChatbotWidget.clearChatGreeting] ∧
    (ChatbotWidget.clearChat c).assessmentState = ChatbotWidget.initialAssessmentState ∧
    ChatbotWidget.initialAssessmentState.active = false ∧
    ChatbotWidget.initialAssessmentState.phase = none ∧
    ChatbotWidget.initialAssessmentState.currentQuestion = 0 ∧
    ChatbotWidget.initialAssessmentState.questions = [] ∧
    ChatbotWidget.initialAssessmentState.mindsetAnswers = [] ∧
    ChatbotWidget.initialAssessmentState.domainAnswers = [] ∧
    ChatbotWidget.initialAssessmentState.selectedDomain = none :=
  ⟨rfl, rfl, rfl, rfl, rfl, rfl, rfl, rfl, rfl⟩

/-- C10: every terminating run of `submitCompleteAssessment`, whether the
evaluate request succeeded or failed, resets `assessmentState` to its initial
inactive values and clears `loading`; in particular a failed evaluation also
ends the assessment run and the accumulated answers are gone from the
state. -/
theorem c10_evaluate_always_resets (c : ChatbotWidget.ChatState)
    (domainAnswers : List (String × String))
    (out : FetchOutcome ChatbotWidget.EvalResult) :
    (ChatbotWidget.submitCompleteAssessment c domainAnswers out).fst.assessmentState =
      ChatbotWidget.initialAssessmentState ∧
    (ChatbotWidget.submitCompleteAssessment c domainAnswers out).fst.loading = false ∧
    (ChatbotWidget.submitCompleteAssessment c domainAnswers out).fst.assessmentState.mindsetAnswers = [] ∧
    (ChatbotWidget.submitCompleteAssessment c domainAnswers out).fst.assessmentState.domainAnswers = [] :=
  ⟨rfl, rfl, rfl, rfl⟩

/-- C8: no answer submission happens with a null or empty answer:
`submitAnswer` issues no network request and changes no state when
`selectedAnswer` is null, and `sendMessage` dispatches no phase handler when
the trimmed input is empty. -/
theorem c8_no_empty_submission (s : PsychometricQuiz.QuizState)
    (ar : FetchOutcome (HttpResp PsychometricQuiz.AnswerBody))
    (rr : FetchOutcome (HttpResp PsychometricQuiz.ResultsBody))
    (c : ChatbotWidget.ChatState)
    (hs : s.selectedAnswer = none) (hc : jsTrim c.input = "") :
    PsychometricQuiz.submitAnswer s ar rr = (s, [], none) ∧
    ChatbotWidget.sendMessageDispatch c = ChatbotWidget.Dispatch.blocked := by
  constructor
  · simp [PsychometricQuiz.submitAnswer, hs]
  · simp [ChatbotWidget.sendMessageDispatch, hc]

/-- C8 witness: the guards at a concrete empty submission. -/
theorem c8_no_empty_submission_witness :
    PsychometricQuiz.submitAnswer quizSetupSample completedAnswerResp okResultsResp =
      (quizSetupSample, [], none) ∧
    ChatbotWidget.sendMessageDispatch { mindsetSample with input := "  " } =
      ChatbotWidget.Dispatch.blocked :=
  c8_no_empty_submission quizSetupSample completedAnswerResp okResultsResp
    { mindsetSample with input := "  " } rfl (by decide)

/-- C4 counterexample: the claim says a failed evaluate request leaves the
Assessment State unchanged except for the loading flag, but
`submitCompleteAssessment` resets `assessmentState` to its initial values
even when the request fails. -/
theorem c4_evaluate_failure_counterexample :
    (ChatbotWidget.submitCompleteAssessment domainTestSample [("d1", "A")]
        FetchOutcome.failure).fst.assessmentState ≠ domainTestSample.assessmentState := by
  decide

/-- C4 (amended): a failed start-assessment or domain-questions request
leaves `assessmentState` unchanged, clears `loading` and appends only an
error message; a failed evaluate request likewise clears `loading` and
appends an error message but additionally resets `assessmentState` to its
initial values. -/
theorem c4_failure_preserves_state (c : ChatbotWidget.ChatState) (inp d : String)
    (domainAnswers : List (String × String))
    (hd : ChatbotWidget.resolveDomain inp = some d) :
    ((ChatbotWidget.startAssessment c FetchOutcome.failure).assessmentState =
        c.assessmentState ∧
      (ChatbotWidget.startAssessment c FetchOutcome.failure).loading = false ∧
      (ChatbotWidget.startAssessment c FetchOutcome.failure).messages =
        c.messages ++ [ChatbotWidget.startUserMessage, botMsg ChatbotWidget.startErrorText]) ∧
    ((ChatbotWidget.handleDomainSelection c inp FetchOutcome.failure).assessmentState =
        c.assessmentState ∧
      (ChatbotWidget.handleDomainSelection c inp FetchOutcome.failure).loading = false ∧
      (ChatbotWidget.handleDomainSelection c inp FetchOutcome.failure).messages =
        c.messages ++ [userMsg d, botMsg ChatbotWidget.domainQuestionsErrorText]) ∧
    ((ChatbotWidget.submitCompleteAssessment c domainAnswers FetchOutcome.failure).fst.assessmentState =
        ChatbotWidget.initialAssessmentState ∧
      (ChatbotWidget.submitCompleteAssessment c domainAnswers FetchOutcome.failure).fst.loading = false ∧
      (ChatbotWidget.submitCompleteAssessment c domainAnswers FetchOutcome.failure).fst.messages =
        c.messages ++ [botMsg ChatbotWidget.processingText, botMsg ChatbotWidget.evaluateErrorText]) := by
  refine ⟨⟨rfl, rfl, ?_⟩, ?_, rfl, rfl, ?_⟩
  · simp [ChatbotWidget.startAssessment, List.append_assoc]
  · unfold ChatbotWidget.handleDomainSelection
    rw [hd]
    exact ⟨rfl, rfl, by simp [List.append_assoc]⟩
  · simp [ChatbotWidget.submitCompleteAssessment, List.append_assoc]

/-- C4 witness: the amended behaviour at a concrete state and input. -/
theorem c4_failure_preserves_state_witness :
    (ChatbotWidget.handleDomainSelection domainTestSample "bio" FetchOutcome.failure).assessmentState =
      domainTestSample.assessmentState :=
  (c4_failure_preserves_state domainTestSample "bio" "Biology" [] (by decide)).2.1.1

/-- C9 counterexample: the claim says every value stored in the answer maps
is an option letter A-D, but `handleMindsetAnswer` records the upper-cased
raw input without validation: answering "hello" stores "HELLO". -/
theorem c9_letter_invariant_counterexample :
    (ChatbotWidget.handleMindsetAnswer mindsetSample "hello").map
        (fun p => objGet p.fst.assessmentState.mindsetAnswers "m1") =
      some (some "HELLO") ∧
    "HELLO" ∉ (["A", "B", "C", "D"] : List String) := by
  exact ⟨by decide, by decide⟩

/-- C9 (amended): every value stored by the answer handlers is the
upper-cased submitted input keyed by the answered question's id (no
validation is performed); the stored value is an option letter A-D exactly
when the user submits one of a/b/c/d in either case. -/
theorem c9_recorded_values (c : ChatbotWidget.ChatState) (ans : String)
    (c1 c2 : ChatbotWidget.ChatState)
    (e1 : ChatbotWidget.MindsetEffect) (e2 : ChatbotWidget.DomainEffect)
    (h1 : ChatbotWidget.handleMindsetAnswer c ans = some (c1, e1))
    (h2 : ChatbotWidget.handleDomainAnswer c ans = some (c2, e2)) :
    (∀ v ∈ answerValues c1.assessmentState.mindsetAnswers,
        v = upperString ans ∨ v ∈ answerValues c.assessmentState.mindsetAnswers) ∧
    (∀ v ∈ answerValues c2.assessmentState.domainAnswers,
        v = upperString ans ∨ v ∈ answerValues c.assessmentState.domainAnswers) ∧
    (ans ∈ (["a", "b", "c", "d", "A", "B", "C", "D"] : List String) →
        upperString ans ∈ (["A", "B", "C", "D"] : List String)) := by
  refine ⟨?_, ?_, ?_⟩
  · intro v hv
    unfold ChatbotWidget.handleMindsetAnswer at h1
    rcases hq : c.assessmentState.questions.get? c.assessmentState.currentQuestion with _ | q
    · rw [hq] at h1
      simp at h1
    · rw [hq] at h1
      dsimp only at h1
      by_cases hlt :
          c.assessmentState.currentQuestion + 1 < c.assessmentState.questions.length
      · rw [if_pos hlt] at h1
        cases h1
        exact mem_answerValues_objSet hv
      · rw [if_neg hlt] at h1
        cases h1
        exact mem_answerValues_objSet hv
  · intro v hv
    unfold ChatbotWidget.handleDomainAnswer at h2
    rcases hq : c.assessmentState.questions.get? c.assessmentState.currentQuestion with _ | q
    · rw [hq] at h2
      simp at h2
    · rw [hq] at h2
      dsimp only at h2
      by_cases hlt :
          c.assessmentState.currentQuestion + 1 < c.assessmentState.questions.length
      · rw [if_pos hlt] at h2
        cases h2
        exact mem_answerValues_objSet hv
      · rw [if_neg hlt] at h2
        cases h2
        exact mem_answerValues_objSet hv
  · intro h
    simp only [List.mem_cons, List.not_mem_nil, or_false] at h
    rcases h with rfl | rfl | rfl | rfl | rfl | rfl | rfl | rfl <;> decide

/-- C9 witness: the amended property at the concrete input "hello". -/
theorem c9_recorded_values_witness :
    "HELLO" = upperString "hello" ∨
      "HELLO" ∈ answerValues mindsetSample.assessmentState.mindsetAnswers :=
  (c9_recorded_values mindsetSample "hello" mindsetHelloPost domainHelloPost
      ChatbotWidget.MindsetEffect.showDomainSelection
      (ChatbotWidget.DomainEffect.submitEvaluation [("m1", "HELLO")])
      (by decide) (by decide)).1 "HELLO" (by decide)

/-- C2: while a phase with a non-empty question list is active, the current
question index stays strictly below the number of questions: answering below
the last index advances the index by one and keeps the phase, and answering
at the last index transitions the phase exactly once (mindset to domain
selection; domain test into the evaluation run, which ends in the reset
idle state). -/
theorem c2_question_index_invariant (c : ChatbotWidget.ChatState) (ans : String)
    (out : FetchOutcome ChatbotWidget.EvalResult)
    (h : c.assessmentState.currentQuestion < c.assessmentState.questions.length) :
    (∃ c1 e1, ChatbotWidget.handleMindsetAnswer c ans = some (c1, e1) ∧
      (c.assessmentState.currentQuestion + 1 < c.assessmentState.questions.length →
        c1.assessmentState.phase = c.assessmentState.phase ∧
        c1.assessmentState.currentQuestion = c.assessmentState.currentQuestion + 1 ∧
        c1.assessmentState.currentQuestion < c1.assessmentState.questions.length) ∧
      (c.assessmentState.currentQuestion + 1 = c.assessmentState.questions.length →
        c1.assessmentState.phase = some ChatbotWidget.Phase.domainSelection ∧
        c1.assessmentState.currentQuestion = c.assessmentState.currentQuestion)) ∧
    (∃ c2, ChatbotWidget.handleDomainAnswerRun c ans out = some c2 ∧
      (c.assessmentState.currentQuestion + 1 < c.assessmentState.questions.length →
        c2.assessmentState.phase = c.assessmentState.phase ∧
        c2.assessmentState.currentQuestion = c.assessmentState.currentQuestion + 1 ∧
        c2.assessmentState.currentQuestion < c2.assessmentState.questions.length) ∧
      (c.assessmentState.currentQuestion + 1 = c.assessmentState.questions.length →
        c2.assessmentState = ChatbotWidget.initialAssessmentState)) := by
  obtain ⟨q, hq⟩ :
      ∃ q, c.assessmentState.questions.get? c.assessmentState.currentQuestion = some q :=
    ⟨_, List.get?_eq_get h⟩
  constructor
  · unfold ChatbotWidget.handleMindsetAnswer
    rw [hq]
    dsimp only
    by_cases hlt :
        c.assessmentState.currentQuestion + 1 < c.assessmentState.questions.length
    · rw [if_pos hlt]
      refine ⟨_, _, rfl, fun _ => ⟨rfl, rfl, ?_⟩, fun heq => absurd heq (by omega)⟩
      simpa using hlt
    · rw [if_neg hlt]
      exact ⟨_, _, rfl, fun hlt2 => absurd hlt2 hlt, fun _ => ⟨rfl, rfl⟩⟩
  · unfold ChatbotWidget.handleDomainAnswerRun ChatbotWidget.handleDomainAnswer
    rw [hq]
    dsimp only
    by_cases hlt :
        c.assessmentState.currentQuestion + 1 < c.assessmentState.questions.length
    · rw [if_pos hlt]
      dsimp only
      refine ⟨_, rfl, fun _ => ⟨rfl, rfl, ?_⟩, fun heq => absurd heq (by omega)⟩
      simpa using hlt
    · rw [if_neg hlt]
      dsimp only
      exact ⟨_, rfl, fun hlt2 => absurd hlt2 hlt, fun _ => rfl⟩

/-- C2 witness: answering the single (last) domain question of a concrete
state runs the evaluation and ends in the reset idle state. -/
theorem c2_question_index_invariant_witness :
    (ChatbotWidget.handleDomainAnswerRun domainTestSample "a" FetchOutcome.failure).map
        (fun c2 => c2.assessmentState) =
      some ChatbotWidget.initialAssessmentState := by
  obtain ⟨-, c2, hc2, -, hlast⟩ :=
    c2_question_index_invariant domainTestSample "a" FetchOutcome.failure (by decide)
  rw [hc2]
  exact congrArg some (hlast (by decide))

/-- C3: in the mindset phase, an answer below the last index keeps the phase
at mindset, advances the index by one, records the upper-cased answer under
the current question's id, and schedules the next question; the answer at the
last index records the final answer and moves the phase to domain
selection. -/
theorem c3_mindset_transitions (c : ChatbotWidget.ChatState) (ans : String)
    (h : c.assessmentState.currentQuestion < c.assessmentState.questions.length)
    (hp : c.assessmentState.phase = some ChatbotWidget.Phase.mindset) :
    ∃ c1 e1 q,
      c.assessmentState.questions.get? c.assessmentState.currentQuestion = some q ∧
      ChatbotWidget.handleMindsetAnswer c ans = some (c1, e1) ∧
      objGet c1.assessmentState.mindsetAnswers q.id = some (upperString ans) ∧
      (c.assessmentState.currentQuestion + 1 < c.assessmentState.questions.length →
        c1.assessmentState.phase = some ChatbotWidget.Phase.mindset ∧
        c1.assessmentState.currentQuestion = c.assessmentState.currentQuestion + 1 ∧
        e1 = ChatbotWidget.MindsetEffect.askNext (c.assessmentState.currentQuestion + 1)) ∧
      (c.assessmentState.currentQuestion + 1 = c.assessmentState.questions.length →
        c1.assessmentState.phase = some ChatbotWidget.Phase.domainSelection ∧
        e1 = ChatbotWidget.MindsetEffect.showDomainSelection) := by
  obtain ⟨q, hq⟩ :
      ∃ q, c.assessmentState.questions.get? c.assessmentState.currentQuestion = some q :=
    ⟨_, List.get?_eq_get h⟩
  unfold ChatbotWidget.handleMindsetAnswer
  rw [hq]
  dsimp only
  by_cases hlt :
      c.assessmentState.currentQuestion + 1 < c.assessmentState.questions.length
  · rw [if_pos hlt]
    refine ⟨_, _, q, rfl, rfl, objGet_objSet .., fun _ => ⟨?_, rfl, rfl⟩,
      fun heq => absurd heq (by omega)⟩
    simpa using hp
  · rw [if_neg hlt]
    exact ⟨_, _, q, rfl, rfl, objGet_objSet .., fun hlt2 => absurd hlt2 hlt,
      fun _ => ⟨rfl, rfl⟩⟩

/-- C3 witness: the concrete one-question mindset state records the
upper-cased answer under the question's id. -/
theorem c3_mindset_transitions_witness :
    (ChatbotWidget.handleMindsetAnswer mindsetSample "b").map
        (fun p => objGet p.fst.assessmentState.mindsetAnswers "m1") =
      some (some (upperString "b")) := by
  obtain ⟨c1, e1, q, hq, hrun, hget, -, -⟩ :=
    c3_mindset_transitions mindsetSample "b" (by decide) rfl
  rw [show mindsetSample.assessmentState.questions.get?
        mindsetSample.assessmentState.currentQuestion =
      some { id := "m1", question := "stem", options := [("A", "x"), ("B", "y")] }
    from rfl] at hq
  cases hq
  rw [hrun]
  exact congrArg some hget

/-- C1 counterexample: the claim admits only 1-based numeric indices in 1..5
or case-insensitive substring matches and says every other input resolves to
none, but JavaScript `parseInt` tolerates trailing garbage: the input "3abc"
is neither an all-digit index nor a substring match, yet it resolves to
"Physics". -/
theorem c1_spec_index_counterexample :
    ChatbotWidget.resolveDomain "3abc" = some "Physics" ∧
    ChatbotWidget.specNumericIndex "3abc" = false ∧
    ChatbotWidget.specSubstringMatch "3abc" = false :=
  ⟨by decide, by decide, by decide⟩

/-- C1 (amended): `handleDomainSelection` resolves the input to exactly one
of the five fixed domains when JavaScript `parseInt` reads a number in 1..5
from the front of the input (leading whitespace and sign, hexadecimal `0x`
prefixes and trailing garbage tolerated) or when the input matches a domain
case-insensitively as a substring either way round; every other input
resolves to none, leaves the state unchanged, and appends the re-prompt
message.  Input "3" resolves to "Physics", "bio" to "Biology", and "xyz" to
none. -/
theorem c1_domain_resolution (inp : String) (c : ChatbotWidget.ChatState)
    (out : FetchOutcome ChatbotWidget.QuestionsData) :
    ((ChatbotWidget.resolveDomain inp).isSome ↔
      (∃ n, jsParseInt inp = some n ∧ 1 ≤ n ∧ n ≤ 5) ∨
        ChatbotWidget.specSubstringMatch inp = true) ∧
    (∀ d, ChatbotWidget.resolveDomain inp = some d → d ∈ ChatbotWidget.domains) ∧
    (ChatbotWidget.resolveDomain inp = none →
      ChatbotWidget.handleDomainSelection c inp out =
        { c with messages := c.messages ++ [botMsg ChatbotWidget.domainRepromptText] }) ∧
    ChatbotWidget.resolveDomain "3" = some "Physics" ∧
    ChatbotWidget.resolveDomain "bio" = some "Biology" ∧
    ChatbotWidget.resolveDomain "xyz" = none := by
  refine ⟨?_, ?_, ?_, by decide, by decide, by decide⟩
  · unfold ChatbotWidget.resolveDomain
    rcases hp : jsParseInt inp with _ | n
    · simp [List.find?_isSome, ChatbotWidget.specSubstringMatch, List.any_eq_true]
    · dsimp only
      by_cases hr : 1 ≤ n ∧ n ≤ Int.ofNat (ChatbotWidget.domains.length)
      · rw [if_pos hr]
        have hlen5 : Int.ofNat (ChatbotWidget.domains.length) = (5 : Int) := rfl
        rw [hlen5] at hr
        have hlen : (n - 1).toNat < ChatbotWidget.domains.length := by
          have h5 : ChatbotWidget.domains.length = 5 := rfl
          omega
        rw [List.get?_eq_get hlen]
        exact ⟨fun _ => Or.inl ⟨n, rfl, hr.1, hr.2⟩, fun _ => rfl⟩
      · rw [if_neg hr]
        have hlen5 : Int.ofNat (ChatbotWidget.domains.length) = (5 : Int) := rfl
        rw [List.find?_isSome]
        unfold ChatbotWidget.specSubstringMatch
        rw [List.any_eq_true]
        constructor
        · exact fun hx => Or.inr hx
        · rintro (⟨n2, hn2, h1, h5⟩ | hx)
          · cases hn2
            exact absurd ⟨h1, by rw [hlen5]; exact h5⟩ hr
          · exact hx
  · intro d hd
    unfold ChatbotWidget.resolveDomain at hd
    rcases hp : jsParseInt inp with _ | n
    · rw [hp] at hd
      dsimp only at hd
      exact List.mem_of_find?_eq_some hd
    · rw [hp] at hd
      dsimp only at hd
      by_cases hr : 1 ≤ n ∧ n ≤ Int.ofNat (ChatbotWidget.domains.length)
      · rw [if_pos hr] at hd
        exact List.get?_mem hd
      · rw [if_neg hr] at hd
        exact List.mem_of_find?_eq_some hd
  · intro h0
    unfold ChatbotWidget.handleDomainSelection
    rw [h0]

/-- C1 witness: the unrecognized input "xyz" at a concrete state leaves the
state unchanged and appends the re-prompt. -/
theorem c1_domain_resolution_witness :
    ChatbotWidget.handleDomainSelection mindsetSample "xyz" FetchOutcome.failure =
      { mindsetSample with
        messages := mindsetSample.messages ++ [botMsg ChatbotWidget.domainRepromptText] } :=
  (c1_domain_resolution "xyz" mindsetSample FetchOutcome.failure).2.2.1 (by decide)

/-- C5 counterexample: the claim says re-entry is prevented because each
handler checks the loading flag before issuing a new request, but
`submitAnswer` checks only `selectedAnswer`: invoked while `loading` is
already true it still issues the answer request and the follow-up results
fetch, so a repeat invocation during loading is not blocked by the flag. -/
theorem c5_no_loading_gate_counterexample :
    quizLoadingSample.loading = true ∧
    (PsychometricQuiz.submitAnswer quizLoadingSample completedAnswerResp
        okResultsResp).snd.fst =
      [PsychometricQuiz.QuizCall.answer, PsychometricQuiz.QuizCall.results] :=
  ⟨rfl, by decide⟩

/-- C5 (amended): one `submitAnswer` invocation never issues more than one
results fetch and issues exactly one when the answer response reports
`completed: true`; the calls it issues do not depend on the loading flag
(`submitAnswer` itself has no loading gate — re-entry during loading is
prevented only by the disabled submit button), while `sendMessage` does check
the loading flag and dispatches nothing while it is set. -/
theorem c5_results_fetch_once (s : PsychometricQuiz.QuizState)
    (ar : FetchOutcome (HttpResp PsychometricQuiz.AnswerBody))
    (rr : FetchOutcome (HttpResp PsychometricQuiz.ResultsBody))
    (b : Bool) (cw : ChatbotWidget.ChatState)
    (hload : cw.loading = true) :
    ((PsychometricQuiz.submitAnswer s ar rr).snd.fst.count
        PsychometricQuiz.QuizCall.results ≤ 1) ∧
    (s.selectedAnswer.isSome = true → PsychometricQuiz.completedResponse ar = true →
      (PsychometricQuiz.submitAnswer s ar rr).snd.fst.count
          PsychometricQuiz.QuizCall.results = 1) ∧
    ((PsychometricQuiz.submitAnswer { s with loading := b } ar rr).snd.fst =
      (PsychometricQuiz.submitAnswer s ar rr).snd.fst) ∧
    ChatbotWidget.sendMessageDispatch cw = ChatbotWidget.Dispatch.blocked := by
  refine ⟨?_, ?_, ?_, ?_⟩
  · unfold PsychometricQuiz.submitAnswer
    repeat' split
    all_goals simp [List.count_cons, List.count_nil]
  · intro hsel hcompl
    obtain ⟨a, ha⟩ := Option.isSome_iff_exists.mp hsel
    rcases ar with ⟨r⟩ | _
    · simp only [PsychometricQuiz.completedResponse, Bool.and_eq_true] at hcompl
      obtain ⟨hok, hc⟩ := hcompl
      rcases hcc : r.body.completed with _ | b2
      · rw [hcc] at hc
        simp at hc
      · rcases b2 with _ | _
        · rw [hcc] at hc
          simp at hc
        · unfold PsychometricQuiz.submitAnswer
          rw [ha]
          dsimp only
          rw [hok, hcc]
          dsimp only
          rcases rr with ⟨r2⟩ | _
          · dsimp only
            split_ifs <;> simp_all [List.count_cons, List.count_nil]
          · simp [List.count_cons, List.count_nil]
    · simp [PsychometricQuiz.completedResponse] at hcompl
  · unfold PsychometricQuiz.submitAnswer
    dsimp only
    repeat' split
    all_goals rfl
  · simp [ChatbotWidget.sendMessageDispatch, hload]

/-- C5 witness: the amended per-invocation guarantee at a concrete quiz
state whose answer response reports completion. -/
theorem c5_results_fetch_once_witness :
    (PsychometricQuiz.submitAnswer quizLoadingSample completedAnswerResp
        okResultsResp).snd.fst.count PsychometricQuiz.QuizCall.results = 1 :=
  (c5_results_fetch_once quizLoadingSample completedAnswerResp okResultsResp true
      loadingChatSample rfl).2.1 rfl (by decide)

/-- C7: the session client's error behaviour: `startQuiz` installs the parsed
payload (session id, question payload, step quiz) on a truthy success flag,
alerts on transport failure or a non-ok HTTP status (the spec's
NetworkError), and alerts when the response parses but its success flag is
falsy or absent (the spec's ProtocolError); the results fetch inside
`submitAnswer` alerts when the results response lacks a truthy success flag
or the `score_data` payload, and on its transport failure.  Every failure
ends in a rendered alert, never a crash, and each operation issues its single
request (plus the one results fetch) exactly once — no retry. -/
theorem c7_error_taxonomy :
    (∀ s, PsychometricQuiz.startQuiz s FetchOutcome.failure =
      ({ s with loading := false }, [PsychometricQuiz.QuizCall.start],
        some PsychometricQuiz.QuizAlert.startTransport)) ∧
    (∀ s b, PsychometricQuiz.startQuiz s (FetchOutcome.success { ok := false, body := b }) =
      ({ s with loading := false }, [PsychometricQuiz.QuizCall.start],
        some PsychometricQuiz.QuizAlert.startHttp)) ∧
    (∀ s b, jsTruthy b.success = false →
      PsychometricQuiz.startQuiz s (FetchOutcome.success { ok := true, body := b }) =
      ({ s with loading := false }, [PsychometricQuiz.QuizCall.start],
        some PsychometricQuiz.QuizAlert.startNoSuccess)) ∧
    (∀ s b, jsTruthy b.success = true →
      PsychometricQuiz.startQuiz s (FetchOutcome.success { ok := true, body := b }) =
      ({ s with
          quizData := some b
          currentQuestion := b.first_question
          questionNum := 1
          sessionId := b.session_id
          step := PsychometricQuiz.QuizStep.quiz
          loading := false },
        [PsychometricQuiz.QuizCall.start], none)) ∧
    (∀ s a (ab : PsychometricQuiz.AnswerBody) (rb : PsychometricQuiz.ResultsBody),
      s.selectedAnswer = some a → ab.completed = some true →
      ¬(jsTruthy rb.success = true ∧ rb.score_data.isSome = true) →
      PsychometricQuiz.submitAnswer s (FetchOutcome.success { ok := true, body := ab })
          (FetchOutcome.success { ok := true, body := rb }) =
        ({ s with loading := false },
          [PsychometricQuiz.QuizCall.answer, PsychometricQuiz.QuizCall.results],
          some PsychometricQuiz.QuizAlert.invalidResults)) ∧
    (∀ s a (ab : PsychometricQuiz.AnswerBody),
      s.selectedAnswer = some a → ab.completed = some true →
      PsychometricQuiz.submitAnswer s (FetchOutcome.success { ok := true, body := ab })
          FetchOutcome.failure =
        ({ s with loading := false },
          [PsychometricQuiz.QuizCall.answer, PsychometricQuiz.QuizCall.results],
          some PsychometricQuiz.QuizAlert.resultsTransport)) := by
  refine ⟨fun s => rfl, fun s b => rfl, ?_, ?_, ?_, ?_⟩
  · intro s b hb
    unfold PsychometricQuiz.startQuiz
    dsimp only
    rw [hb]
    rfl
  · intro s b hb
    unfold PsychometricQuiz.startQuiz
    dsimp only
    rw [hb]
    rfl
  · intro s a ab rb hsel hc hcond
    unfold PsychometricQuiz.submitAnswer
    rw [hsel]
    dsimp only
    rw [hc]
    dsimp only
    rw [if_neg hcond]
    rfl
  · intro s a ab hsel hc
    unfold PsychometricQuiz.submitAnswer
    rw [hsel]
    dsimp only
    rw [hc]
    rfl

/-- C7 witness: a parsed start response without a success flag alerts and
leaves the step unchanged. -/
theorem c7_error_taxonomy_witness :
    PsychometricQuiz.startQuiz quizSetupSample
        (FetchOutcome.success { ok := true, body := noSuccessStartBody }) =
      ({ quizSetupSample with loading := false }, [PsychometricQuiz.QuizCall.start],
        some PsychometricQuiz.QuizAlert.startNoSuccess) :=
  c7_error_taxonomy.2.2.1 quizSetupSample noSuccessStartBody rfl
